import Mathlib

/-!
Verification development for the Class-Availability-Tracker repository.

The Python source under src/ is shallowly embedded here:
- src/parser.py : parse_row_element, is_section_open (regex searches are
  embedded as character-level scanners with Python re.search leftmost-match
  semantics for the three concrete patterns used by the source);
- src/notifier.py : should_notify, mark_notified (file-based state is
  embedded as a map from labels to entries; the stored ISO timestamp string
  is embedded as its parse outcome: absent, unparsable, or a point in time
  measured in seconds);
- src/runner.py : should_notify, mark_notified, and the per-label check
  cycle of main (delivery over the network is embedded as a list of
  per-message outcomes: success, an HTTP error status that the source only
  prints, or a raised exception that the source catches in main's except
  block, skipping mark_notified);
- src/checker_playwright.py : the state-commit portion of main following
  classification (the boolean result of notify_open is a parameter).
-/

/-! ## String and scanning helpers (Python semantics) -/

/-- Python str.lower for the ASCII texts handled by the source. -/
def lowerStr (s : String) : String :=
  ⟨s.data.map Char.toLower⟩

/-- Python substring membership: needle occurs somewhere in hay. -/
def hasSubstr : List Char → List Char → Bool
  | [], needle => needle.isEmpty
  | c :: rest, needle => needle.isPrefixOf (c :: rest) || hasSubstr rest needle

/-- Python `needle in hay` on strings. -/
def strContains (hay needle : String) : Bool :=
  hasSubstr hay.data needle.data

/-- Python regex whitespace class. -/
def pySpace (c : Char) : Bool :=
  c = ' ' || c = '\t' || c = '\n' || c = '\r' || c.toNat = 11 || c.toNat = 12

/-- Character class of the regex fragment that skips colons and whitespace. -/
def colonSpace (c : Char) : Bool :=
  c = ':' || pySpace c

/-- Numeric value of a digit run, as Python int() of the matched group. -/
def natOfDigits (ds : List Char) : Nat :=
  ds.foldl (fun n c => n * 10 + (c.toNat - 48)) 0

/-- Case-insensitive literal prefix test; the needle is given in lower case. -/
def startsWithCI (needle : List Char) (hay : List Char) : Bool :=
  needle.isPrefixOf (hay.map Char.toLower)

/-! ## String constants used by the source -/

def sEmpty : String := ""

def sOpen : String := "open"

def sClosed : String := "closed"

def sFull : String := "full"

def sWaitlist : String := "waitlist"

def sWaitSpace : String := "wait list"

def sWl : String := "wl"

def sAvailable : String := "available"

def sSeat : String := "seat"

def sSeatsAvailable : String := "seats available"

def sSeatAvailable : String := "seat available"

def enrlKey : String := "enrl"

def capKey : String := "cap"

/-! ## Embedded regex searches from src/parser.py

NUMERIC_SLASH_RE = `(\d+)\s*/\s*(\d+)`. The whitespace and slash elements
cannot consume digits, so the greedy digit runs are the maximal ones and
re.search semantics is: earliest start position at which the match goes
through. -/

/-- Attempt NUMERIC_SLASH_RE anchored at the head of the character list. -/
def slashMatchAt (cs : List Char) : Option (Nat × Nat) :=
  let d1 := cs.takeWhile Char.isDigit
  if d1.isEmpty then none
  else
    match (cs.dropWhile Char.isDigit).dropWhile pySpace with
    | [] => none
    | c :: rest =>
      if c = '/' then
        let d2 := (rest.dropWhile pySpace).takeWhile Char.isDigit
        if d2.isEmpty then none else some (natOfDigits d1, natOfDigits d2)
      else none

def slashSearchAux : List Char → Option (Nat × Nat)
  | [] => none
  | c :: cs =>
    match slashMatchAt (c :: cs) with
    | some r => some r
    | none => slashSearchAux cs

/-- re.search of NUMERIC_SLASH_RE over the row text. -/
def slashSearch (text : String) : Option (Nat × Nat) :=
  slashSearchAux text.data

/-- Scan for `Cap[:\s]*?(\d+)` reachable through the non-greedy `.*?` of
ENRL_CAP_RE; `.` does not match a newline, which therefore stops the scan.
The non-greedy skip after "Cap" must reach a digit through colon/whitespace
characters only, hence it is the maximal such run followed by a digit. -/
def enrlCapFindCap : List Char → Option Nat
  | [] => none
  | c :: cs =>
    match
      (if startsWithCI capKey.data (c :: cs) then
        let d := (((c :: cs).drop 3).dropWhile colonSpace).takeWhile Char.isDigit
        if d.isEmpty then none else some (natOfDigits d)
      else none) with
    | some v => some v
    | none => if c = '\n' then none else enrlCapFindCap cs

/-- Attempt ENRL_CAP_RE = `Enrl[:\s]*?(\d+).*?Cap[:\s]*?(\d+)` (IGNORECASE)
anchored at the head of the character list. -/
def enrlMatchAt (cs : List Char) : Option (Nat × Nat) :=
  if startsWithCI enrlKey.data cs then
    let r := (cs.drop 4).dropWhile colonSpace
    let d := r.takeWhile Char.isDigit
    if d.isEmpty then none
    else
      match enrlCapFindCap (r.dropWhile Char.isDigit) with
      | some cap => some (natOfDigits d, cap)
      | none => none
  else none

def enrlCapSearchAux : List Char → Option (Nat × Nat)
  | [] => none
  | c :: cs =>
    match enrlMatchAt (c :: cs) with
    | some r => some r
    | none => enrlCapSearchAux cs

/-- re.search of ENRL_CAP_RE over the row text. -/
def enrlCapSearch (text : String) : Option (Nat × Nat) :=
  enrlCapSearchAux text.data

/-- Attempt SEATS_AVAILABLE_RE = `(\d+)\s+(?:seats?|seats?\s+available)`
(IGNORECASE) anchored at the head: digits, at least one whitespace, then the
literal "seat" case-insensitively (the first alternative of the group already
succeeds whenever the second would). -/
def seatsMatchAt (cs : List Char) : Option Nat :=
  let d := cs.takeWhile Char.isDigit
  if d.isEmpty then none
  else
    let r := cs.dropWhile Char.isDigit
    if (r.takeWhile pySpace).isEmpty then none
    else if startsWithCI sSeat.data (r.dropWhile pySpace) then some (natOfDigits d)
    else none

def seatsSearchAux : List Char → Option Nat
  | [] => none
  | c :: cs =>
    match seatsMatchAt (c :: cs) with
    | some n => some n
    | none => seatsSearchAux cs

/-- re.search of SEATS_AVAILABLE_RE over the row text. -/
def seatsSearch (text : String) : Option Nat :=
  seatsSearchAux text.data

/-! ## Data model (src/parser.py) -/

/-- The dict returned by parse_row_element. -/
structure SectionInfo where
  label : Option String
  enrolled : Option Nat
  capacity : Option Nat
  seats_available : Option Nat
  status_text : Option String
  raw : String
deriving DecidableEq

/-- The inputs parse_row_element reads off a BeautifulSoup <tr> element:
its flattened text, the text of a td a.stopbubble anchor when present, the
text of the first anchor when present, and the text of a status span
(span.section-open / section-closed / section-waitlist) when present. -/
structure RowElem where
  text : String
  stopbubbleAnchor : Option String
  firstAnchor : Option String
  statusSpan : Option String
deriving DecidableEq

/-- Keyword fallback of parse_row_element that normalizes status words from
the lowered raw text when the status span is missing or empty. -/
def statusFromText (text : String) : Option String :=
  let t := lowerStr text
  if strContains t sFull then some sFull
  else if strContains t sOpen || strContains t sAvailable
      || strContains t sSeatsAvailable || strContains t sSeatAvailable then some sOpen
  else if strContains t sWaitlist || strContains t sWaitSpace || strContains t sWl then
    some sWaitlist
  else if strContains t sClosed then some sClosed
  else none

/-- parse_row_element from src/parser.py. A status span whose text is empty
is falsy in Python, so the keyword fallback also runs in that case. -/
def parse_row_element (tr : RowElem) : SectionInfo :=
  let text := tr.text
  let label :=
    match tr.stopbubbleAnchor with
    | some a => some a
    | none => tr.firstAnchor
  let ec : Option Nat × Option Nat :=
    match slashSearch text with
    | some p => (some p.1, some p.2)
    | none =>
      match enrlCapSearch text with
      | some p => (some p.1, some p.2)
      | none => (none, none)
  let seats := seatsSearch text
  let status :=
    match tr.statusSpan with
    | some s => if (lowerStr s).data.isEmpty then statusFromText text else some (lowerStr s)
    | none => statusFromText text
  { label := label, enrolled := ec.1, capacity := ec.2,
    seats_available := seats, status_text := status, raw := text }

/-- is_section_open from src/parser.py. -/
def is_section_open (info : SectionInfo) : Bool :=
  match info.seats_available with
  | some s => decide (s > 0)
  | none =>
    match info.enrolled, info.capacity with
    | some en, some cap => decide (en < cap)
    | _, _ =>
      let status := lowerStr (Option.getD info.status_text sEmpty)
      if status.data.isEmpty then false
      else if strContains status sOpen || strContains status sAvailable
          || strContains status sSeat then true
      else if strContains status sFull || strContains status sClosed
          || strContains status sWaitlist || strContains status sWaitSpace
          || strContains status sWl then false
      else false


/-! ## Notification state of src/notifier.py

The JSON entry stores last_status ("open" or "closed") and last_notified (an
ISO timestamp string). The timestamp string is embedded as the outcome of
datetime.fromisoformat on it: `none` when the key is absent (fromisoformat
then raises TypeError, caught by the except branch), `some none` when the
string does not parse (ValueError, same branch), and `some (some t)` when it
parses to the time t, measured in seconds so that a timedelta comparison
against RENOTIFY_AFTER = 1 hour becomes a comparison against 3600. -/

structure NotifierEntry where
  last_status : Option String
  last_notified : Option (Option Int)
deriving DecidableEq

/-- The JSON map held in data/notified.json, keyed by label. -/
abbrev NotifierState := String → Option NotifierEntry

namespace Notifier

/-- should_notify from src/notifier.py. -/
def should_notify (state : NotifierState) (label : String) (is_open : Bool)
    (now : Int) : Bool :=
  match state label with
  | none => true
  | some entry =>
    match entry.last_notified with
    | none => true
    | some none => true
    | some (some last_notified) =>
      if entry.last_status ≠ some (if is_open then sOpen else sClosed) then true
      else if is_open && decide (now - last_notified > 3600) then true
      else false

/-- mark_notified from src/notifier.py: stores the collapsed status and the
current time for the label, leaving other labels untouched. -/
def mark_notified (state : NotifierState) (label : String) (is_open : Bool)
    (now : Int) : NotifierState :=
  fun l =>
    if l = label then
      some { last_status := some (if is_open then sOpen else sClosed),
             last_notified := some (some now) }
    else state l

end Notifier

/-! ## Notification state of src/runner.py

The entry written by runner.mark_notified holds last_notified (ISO string,
embedded as its parse outcome like above, with `none` also covering the empty
string since the source tests `if not last`), last_status (the record's
status_text, possibly absent), and enrolled (the record's enrolled count,
possibly absent). -/

structure RunnerEntry where
  last_notified : Option (Option Int)
  last_status : Option String
  enrolled : Option Nat
deriving DecidableEq

/-- The JSON map held in data/notified.json by the runner, keyed by label. -/
abbrev RunnerState := String → Option RunnerEntry

/-- backoff_seconds default of runner.should_notify. -/
def backoffSeconds : Int := 3600

/-- One per-message delivery outcome inside runner.notify_users: the POST
succeeded, the POST returned a non-200 status (the source merely prints and
continues), or the HTTP library raised (the exception propagates out of
notify_users into main's except block). -/
inductive DeliveryOutcome
  | success
  | httpFailure
  | raised
deriving DecidableEq

/-- notify_users from src/runner.py, abstracted over the per-message
outcomes: HTTP error statuses are swallowed, a raised exception aborts. -/
def notify_users : List DeliveryOutcome → Except Unit Unit
  | [] => Except.ok ()
  | DeliveryOutcome.raised :: _ => Except.error ()
  | _ :: rest => notify_users rest

namespace Runner

/-- should_notify from src/runner.py. Note that the status-change and
enrollment-drop tests sit inside the `elapsed >= backoff_seconds` branch. -/
def should_notify (label : String) (info : SectionInfo)
    (notified_state : RunnerState) (now : Int) (backoff_seconds : Int) : Bool :=
  match notified_state label with
  | none => true
  | some entry =>
    match entry.last_notified with
    | none => true
    | some none => true
    | some (some last_dt) =>
      let elapsed := now - last_dt
      if elapsed ≥ backoff_seconds then
        decide (info.status_text ≠ entry.last_status)
          || (match info.enrolled, entry.enrolled with
              | some ie, some pe => decide (ie < pe)
              | _, _ => false)
      else false

/-- mark_notified from src/runner.py: replaces the label's entry with the
current time, the record's status_text and its enrolled count. -/
def mark_notified (label : String) (info : SectionInfo)
    (notified_state : RunnerState) (now : Int) : RunnerState :=
  fun l =>
    if l = label then
      some { last_notified := some (some now), last_status := info.status_text,
             enrolled := info.enrolled }
    else notified_state l

/-- The per-label decision-and-commit portion of runner.main: when
should_notify grants, notify_users runs and mark_notified follows it
unconditionally — unless notify_users raised, in which case main's except
block catches the exception before mark_notified is reached. Returns the
resulting state together with the decision that was taken. -/
def checkCycle (label : String) (info : SectionInfo)
    (notified_state : RunnerState) (now : Int)
    (outcomes : List DeliveryOutcome) : RunnerState × Bool :=
  if should_notify label info notified_state now backoffSeconds then
    match notify_users outcomes with
    | Except.error _ => (notified_state, true)
    | Except.ok _ => (mark_notified label info notified_state now, true)
  else (notified_state, false)

end Runner

namespace Checker

/-- The state-commit portion of checker_playwright.main after is_section_open
has produced open_bool: on the open path, mark_notified runs only when
should_notify granted and notify_open reported success (sent); on the closed
path, mark_notified records the closed state unconditionally. -/
def afterClassify (label : String) (open_bool : Bool) (state : NotifierState)
    (now : Int) (sent : Bool) : NotifierState :=
  if open_bool then
    if Notifier.should_notify state label true now then
      if sent then Notifier.mark_notified state label true now else state
    else state
  else Notifier.mark_notified state label false now

end Checker

/-! ## Shared lemmas -/

/-- A string that contains a nonempty substring is itself nonempty. -/
theorem nonempty_of_strContains (x needle : String)
    (hn : needle.data.isEmpty = false) (h : strContains x needle = true) :
    x.data.isEmpty = false := by
  cases hx : x.data with
  | nil =>
    exfalso
    rw [strContains, hx] at h
    rw [hasSubstr] at h
    rw [h] at hn
    exact Bool.noConfusion hn
  | cons a t => rfl

/-! ## Claims about the openness classifier -/

/-- C4: whenever seats_available is present, is_section_open returns exactly
the test seats_available > 0; the result depends on no other field of the
record, so a record with seats_available = 0 and status_text "open"
classifies as closed. -/
theorem C4_seats_rule (info : SectionInfo) (n : Nat)
    (h : info.seats_available = some n) :
    is_section_open info = decide (0 < n) := by
  rcases info with ⟨l, e, c, sa, st, r⟩
  simp only at h
  subst h
  rfl

def seatsZeroOpenText : SectionInfo :=
  { label := none, enrolled := none, capacity := none,
    seats_available := some 0, status_text := some sOpen, raw := sEmpty }

/-- Witness for C4 at the spec's own example: seats_available = 0 together
with status_text "open" classifies as closed. -/
theorem C4_seats_rule_witness : is_section_open seatsZeroOpenText = false :=
  C4_seats_rule seatsZeroOpenText 0 rfl

/-- C8: is_section_open is a total boolean-valued function, and on a record
with every optional field absent it returns false. -/
theorem C8_total_and_conservative :
    (∀ info : SectionInfo,
      is_section_open info = true ∨ is_section_open info = false) ∧
    (∀ info : SectionInfo, info.seats_available = none → info.enrolled = none →
      info.capacity = none → info.status_text = none →
      is_section_open info = false) := by
  constructor
  · intro info
    cases h : is_section_open info
    · right; rfl
    · left; rfl
  · intro info h1 h2 h3 h4
    rcases info with ⟨l, e, c, sa, st, r⟩
    simp only at h1 h2 h3 h4
    subst h1 h2 h3 h4
    rfl

def allAbsentRec : SectionInfo :=
  { label := none, enrolled := none, capacity := none,
    seats_available := none, status_text := none, raw := sEmpty }

/-- Witness for C8 on the record with every optional field absent. -/
theorem C8_total_and_conservative_witness :
    is_section_open allAbsentRec = false :=
  C8_total_and_conservative.2 allAbsentRec rfl rfl rfl rfl

/-- C10: with the numeric fields absent, a status_text containing an open
token is classified open even when closed tokens are present too, because
rule 3 tests the open tokens first. -/
theorem C10_open_tokens_first (info : SectionInfo) (s : String)
    (h1 : info.seats_available = none) (h2 : info.enrolled = none)
    (h3 : info.capacity = none) (h4 : info.status_text = some s)
    (h5 : (strContains (lowerStr s) sOpen || strContains (lowerStr s) sAvailable
      || strContains (lowerStr s) sSeat) = true) :
    is_section_open info = true := by
  rcases info with ⟨l, e, c, sa, st, r⟩
  simp only at h1 h2 h3 h4
  subst h1 h2 h3 h4
  have hne : (lowerStr s).data.isEmpty = false := by
    rcases Bool.or_eq_true_iff.mp h5 with h | h
    · rcases Bool.or_eq_true_iff.mp h with h | h
      · exact nonempty_of_strContains _ sOpen (by decide) h
      · exact nonempty_of_strContains _ sAvailable (by decide) h
    · exact nonempty_of_strContains _ sSeat (by decide) h
  simp only [is_section_open, Option.getD_some]
  rw [hne, h5]
  simp

def openAndFullText : String := "open full waitlist wl closed"

def mixedTokensRec : SectionInfo :=
  { label := none, enrolled := none, capacity := none,
    seats_available := none, status_text := some openAndFullText, raw := sEmpty }

/-- Witness for C10: a status text carrying both open and closed tokens is
classified open. -/
theorem C10_open_tokens_first_witness : is_section_open mixedTokensRec = true :=
  C10_open_tokens_first mixedTokensRec openAndFullText rfl rfl rfl rfl (by decide)

/-! ## Claims about the notification decision -/

/-- C2: a stored entry with a parsable last-notified timestamp whose
last_status differs from the current collapsed open/closed classification
yields notify = true for any current time whatsoever. -/
theorem C2_status_flip (state : NotifierState) (label : String)
    (entry : NotifierEntry) (t now : Int) (is_open : Bool)
    (hst : state label = some entry)
    (hln : entry.last_notified = some (some t))
    (hdiff : entry.last_status ≠ some (if is_open then sOpen else sClosed)) :
    Notifier.should_notify state label is_open now = true := by
  simp only [Notifier.should_notify, hst]
  rw [hln]
  simp [hdiff]

def flipLabel : String := "CS 4349.003"

def flipEntry : NotifierEntry :=
  { last_status := some sClosed, last_notified := some (some 0) }

def flipState : NotifierState :=
  fun l => if l = flipLabel then some flipEntry else none

/-- Witness for C2: previously closed, currently open, last notified at the
current instant (no time elapsed at all) still notifies. -/
theorem C2_status_flip_witness :
    Notifier.should_notify flipState flipLabel true 0 = true :=
  C2_status_flip flipState flipLabel flipEntry 0 0 true rfl rfl (by decide)

/-- C3: a stored entry with a parsable last-notified timestamp whose
last_status equals the current collapsed classification notifies exactly when
the section is open and the elapsed time strictly exceeds the one-hour
cooldown; in particular a still-closed section never re-notifies. -/
theorem C3_unchanged_cooldown (state : NotifierState) (label : String)
    (entry : NotifierEntry) (t now : Int) (is_open : Bool)
    (hst : state label = some entry)
    (hln : entry.last_notified = some (some t))
    (hsame : entry.last_status = some (if is_open then sOpen else sClosed)) :
    Notifier.should_notify state label is_open now
      = (is_open && decide (now - t > 3600)) := by
  simp only [Notifier.should_notify, hst]
  rw [hln]
  simp only [hsame, ne_eq, not_true_eq_false, if_false]
  cases h : (is_open && decide (now - t > 3600)) <;> simp [h]

def stillClosedEntry : NotifierEntry :=
  { last_status := some sClosed, last_notified := some (some 0) }

def stillClosedState : NotifierState :=
  fun l => if l = flipLabel then some stillClosedEntry else none

def stillOpenEntry : NotifierEntry :=
  { last_status := some sOpen, last_notified := some (some 0) }

def stillOpenState : NotifierState :=
  fun l => if l = flipLabel then some stillOpenEntry else none

/-- Witness for C3: a still-closed section does not notify however much time
has passed; a still-open one notifies after 3601 seconds but not after
3600. -/
theorem C3_unchanged_cooldown_witness :
    Notifier.should_notify stillClosedState flipLabel false 999999 = false ∧
    Notifier.should_notify stillOpenState flipLabel true 3601 = true ∧
    Notifier.should_notify stillOpenState flipLabel true 3600 = false := by
  refine ⟨?_, ?_, ?_⟩
  · rw [C3_unchanged_cooldown stillClosedState flipLabel stillClosedEntry 0
      999999 false rfl rfl (by decide)]
    decide
  · rw [C3_unchanged_cooldown stillOpenState flipLabel stillOpenEntry 0
      3601 true rfl rfl (by decide)]
    decide
  · rw [C3_unchanged_cooldown stillOpenState flipLabel stillOpenEntry 0
      3600 true rfl rfl (by decide)]
    decide

/-- C7: a label with no stored entry, or whose stored entry has an absent or
unparsable last-notified timestamp, yields notify = true — in both
implementations of the notification decision. -/
theorem C7_never_notified :
    (∀ label info state now backoff, state label = none →
      Runner.should_notify label info state now backoff = true) ∧
    (∀ label info state now backoff entry, state label = some entry →
      entry.last_notified = none →
      Runner.should_notify label info state now backoff = true) ∧
    (∀ label info state now backoff entry, state label = some entry →
      entry.last_notified = some none →
      Runner.should_notify label info state now backoff = true) ∧
    (∀ state label is_open now, state label = none →
      Notifier.should_notify state label is_open now = true) ∧
    (∀ state label is_open now entry, state label = some entry →
      entry.last_notified = none →
      Notifier.should_notify state label is_open now = true) ∧
    (∀ state label is_open now entry, state label = some entry →
      entry.last_notified = some none →
      Notifier.should_notify state label is_open now = true) := by
  refine ⟨?_, ?_, ?_, ?_, ?_, ?_⟩
  · intro label info state now backoff h
    simp [Runner.should_notify, h]
  · intro label info state now backoff entry h hln
    simp only [Runner.should_notify, h]
    rw [hln]
  · intro label info state now backoff entry h hln
    simp only [Runner.should_notify, h]
    rw [hln]
  · intro state label is_open now h
    simp [Notifier.should_notify, h]
  · intro state label is_open now entry h hln
    simp only [Notifier.should_notify, h]
    rw [hln]
  · intro state label is_open now entry h hln
    simp only [Notifier.should_notify, h]
    rw [hln]

def emptyRunnerState : RunnerState := fun _ => none

def malformedTsEntry : RunnerEntry :=
  { last_notified := some none, last_status := some sOpen, enrolled := some 3 }

def malformedTsState : RunnerState :=
  fun l => if l = flipLabel then some malformedTsEntry else none

def emptyNotifierState : NotifierState := fun _ => none

/-- Witness for C7: first sight of a label and a malformed stored timestamp
both notify. -/
theorem C7_never_notified_witness :
    Runner.should_notify flipLabel allAbsentRec emptyRunnerState 0 3600 = true ∧
    Runner.should_notify flipLabel allAbsentRec malformedTsState 0 3600 = true ∧
    Notifier.should_notify emptyNotifierState flipLabel true 0 = true := by
  refine ⟨?_, ?_, ?_⟩
  · exact C7_never_notified.1 flipLabel allAbsentRec emptyRunnerState 0 3600 rfl
  · exact C7_never_notified.2.2.1 flipLabel allAbsentRec malformedTsState 0 3600
      malformedTsEntry rfl rfl
  · exact C7_never_notified.2.2.2.1 emptyNotifierState flipLabel true 0 rfl

/-! ## C1: enrollment drop within the cooldown (runner variant, the only
implementation that reads enrollment) -/

def dropInfo : SectionInfo :=
  { label := some flipLabel, enrolled := some 29, capacity := some 30,
    seats_available := none, status_text := some sOpen, raw := sEmpty }

def dropEntry : RunnerEntry :=
  { last_notified := some (some 0), last_status := some sOpen,
    enrolled := some 30 }

def dropState : RunnerState :=
  fun l => if l = flipLabel then some dropEntry else none

/-- C1 counterexample: stored status open, current status open, enrollment
dropped from 30 to 29, last notified 300 seconds ago (within the 3600 second
backoff): runner.should_notify returns false, while the claim demands true.
Both change tests sit inside the elapsed-at-least-backoff branch. -/
theorem C1_cex :
    Runner.should_notify flipLabel dropInfo dropState 300 3600 = false ∧
    dropState flipLabel = some dropEntry ∧
    dropEntry.last_status = some sOpen ∧ dropInfo.status_text = some sOpen ∧
    dropInfo.enrolled = some 29 ∧ dropEntry.enrolled = some 30 := by
  refine ⟨by decide, rfl, rfl, rfl, rfl, rfl⟩

/-- C1 (amended): an enrollment drop (current enrolled strictly below the
stored value) forces notify = true only once the elapsed time since the
stored timestamp has reached the backoff; within the cooldown window the
decision is false regardless of the drop. -/
theorem C1_amended_drop_after_backoff (label : String) (info : SectionInfo)
    (state : RunnerState) (now backoff t : Int) (entry : RunnerEntry)
    (ie pe : Nat) (hst : state label = some entry)
    (hln : entry.last_notified = some (some t)) (he : now - t ≥ backoff)
    (hie : info.enrolled = some ie) (hpe : entry.enrolled = some pe)
    (hdrop : ie < pe) :
    Runner.should_notify label info state now backoff = true := by
  simp only [Runner.should_notify, hst]
  rw [hln]
  simp only [hie, hpe]
  simp [he, hdrop]

/-- Witness for the amended C1: the same enrollment drop does notify once
exactly the backoff has elapsed. -/
theorem C1_amended_drop_after_backoff_witness :
    Runner.should_notify flipLabel dropInfo dropState 3600 3600 = true :=
  C1_amended_drop_after_backoff flipLabel dropInfo dropState 3600 3600 0
    dropEntry 29 30 (by decide) rfl (by decide) rfl rfl (by decide)

/-! ## C5: which fields a decision cycle refreshes (runner variant) -/

def cLabel : String := "CS 2305.001"

def staleInfo : SectionInfo :=
  { label := some cLabel, enrolled := some 29, capacity := some 30,
    seats_available := none, status_text := some sOpen, raw := sEmpty }

def staleEntry : RunnerEntry :=
  { last_notified := some (some 0), last_status := some sClosed,
    enrolled := some 30 }

def staleState : RunnerState :=
  fun l => if l = cLabel then some staleEntry else none

/-- C5 counterexample: a cycle whose decision is notify = false leaves the
stored last_status and enrolled untouched (still "closed" / 30) even though
the current record carries "open" / 29 — the claim demands that these two
fields be refreshed on every decision. -/
theorem C5_cex :
    (Runner.checkCycle cLabel staleInfo staleState 300 []).2 = false ∧
    (Runner.checkCycle cLabel staleInfo staleState 300 []).1 cLabel
      = some staleEntry ∧
    staleEntry.last_status = some sClosed ∧
    staleInfo.status_text = some sOpen ∧
    staleEntry.enrolled = some 30 ∧ staleInfo.enrolled = some 29 := by
  refine ⟨by decide, by decide, rfl, rfl, rfl, rfl⟩

/-- C5 (amended): the runner refreshes last_notified, last_status and
enrolled together, and only when the decision is notify = true and delivery
raises no exception; when the decision is notify = false the stored entry is
left entirely unchanged. -/
theorem C5_amended_refresh_only_on_notify :
    (∀ label info state now outcomes,
      Runner.should_notify label info state now backoffSeconds = false →
      Runner.checkCycle label info state now outcomes = (state, false)) ∧
    (∀ label info state now outcomes,
      Runner.should_notify label info state now backoffSeconds = true →
      notify_users outcomes = Except.ok () →
      (Runner.checkCycle label info state now outcomes).1 label
          = some { last_notified := some (some now),
                   last_status := info.status_text,
                   enrolled := info.enrolled } ∧
        (Runner.checkCycle label info state now outcomes).2 = true) := by
  constructor
  · intro label info state now outcomes h
    simp [Runner.checkCycle, h]
  · intro label info state now outcomes h hok
    simp [Runner.checkCycle, h, hok, Runner.mark_notified]

/-- Witness for the amended C5: the suppressed cycle above returns the state
unchanged, and a granted first-sight cycle with successful delivery writes
all three fields. -/
theorem C5_amended_refresh_only_on_notify_witness :
    Runner.checkCycle cLabel staleInfo staleState 300 [] = (staleState, false) ∧
    ((Runner.checkCycle cLabel staleInfo emptyRunnerState 1000
        [DeliveryOutcome.success]).1 cLabel
        = some { last_notified := some (some 1000),
                 last_status := staleInfo.status_text,
                 enrolled := staleInfo.enrolled } ∧
      (Runner.checkCycle cLabel staleInfo emptyRunnerState 1000
        [DeliveryOutcome.success]).2 = true) :=
  ⟨C5_amended_refresh_only_on_notify.1 cLabel staleInfo staleState 300 []
      (by decide),
    C5_amended_refresh_only_on_notify.2 cLabel staleInfo emptyRunnerState 1000
      [DeliveryOutcome.success] (by decide) rfl⟩

/-! ## C6: commit only on confirmed delivery -/

def c6Label : String := "CS 3345.002"

def c6Info : SectionInfo :=
  { label := some c6Label, enrolled := some 10, capacity := some 30,
    seats_available := none, status_text := some sOpen, raw := sEmpty }

/-- C6 counterexample: the runner path commits the entry even though the one
delivery attempt failed with an HTTP error status (notify_users merely
prints such failures), so failed delivery is not retried from unchanged
state there. -/
theorem C6_cex :
    (Runner.checkCycle c6Label c6Info emptyRunnerState 1000
        [DeliveryOutcome.httpFailure]).1 c6Label
      = some { last_notified := some (some 1000), last_status := some sOpen,
               enrolled := some 10 } ∧
    emptyRunnerState c6Label = none := by
  refine ⟨by decide, rfl⟩

/-- C6 (amended): the playwright checker's open path leaves the state
unchanged whenever notify_open did not report success, and the runner leaves
the state unchanged when delivery raises an exception; only an HTTP-status
delivery failure in the runner still commits. -/
theorem C6_amended_commit_ordering :
    (∀ label state now,
      Checker.afterClassify label true state now false = state) ∧
    (∀ label info state now outcomes,
      notify_users outcomes = Except.error () →
      (Runner.checkCycle label info state now outcomes).1 = state) := by
  constructor
  · intro label state now
    rw [Checker.afterClassify]
    cases h : Notifier.should_notify state label true now <;> simp [h]
  · intro label info state now outcomes h
    rw [Runner.checkCycle]
    cases hs : Runner.should_notify label info state now backoffSeconds
    · simp [hs]
    · simp [hs, h]

/-- Witness for the amended C6: a failed webhook POST on first sight leaves
the checker state unchanged, and a raised exception during runner delivery
leaves the runner state unchanged. -/
theorem C6_amended_commit_ordering_witness :
    Checker.afterClassify flipLabel true emptyNotifierState 5 false
        = emptyNotifierState ∧
      (Runner.checkCycle c6Label c6Info emptyRunnerState 1000
        [DeliveryOutcome.raised]).1 = emptyRunnerState :=
  ⟨C6_amended_commit_ordering.1 flipLabel emptyNotifierState 5,
    C6_amended_commit_ordering.2 c6Label c6Info emptyRunnerState 1000
      [DeliveryOutcome.raised] rfl⟩

/-! ## C9: enrolled and capacity come together from one pattern -/

/-- C9: parse_row_element populates enrolled and capacity either both or
neither; when the slash pattern matches anywhere in the row text both values
are its two groups, otherwise both come from the labeled Enrl/Cap pattern,
and when neither matches both are absent — never one value from each. -/
theorem C9_enrl_cap_single_pattern (tr : RowElem) :
    ((parse_row_element tr).enrolled.isSome
        = (parse_row_element tr).capacity.isSome) ∧
    (∀ a b, slashSearch tr.text = some (a, b) →
      (parse_row_element tr).enrolled = some a ∧
        (parse_row_element tr).capacity = some b) ∧
    (slashSearch tr.text = none → ∀ a b, enrlCapSearch tr.text = some (a, b) →
      (parse_row_element tr).enrolled = some a ∧
        (parse_row_element tr).capacity = some b) ∧
    (slashSearch tr.text = none → enrlCapSearch tr.text = none →
      (parse_row_element tr).enrolled = none ∧
        (parse_row_element tr).capacity = none) := by
  refine ⟨?_, ?_, ?_, ?_⟩
  · cases hs : slashSearch tr.text with
    | some p => simp [parse_row_element, hs]
    | none =>
      cases he : enrlCapSearch tr.text with
      | some p => simp [parse_row_element, hs, he]
      | none => simp [parse_row_element, hs, he]
  · intro a b hs
    simp [parse_row_element, hs]
  · intro hs a b he
    simp [parse_row_element, hs, he]
  · intro hs he
    simp [parse_row_element, hs, he]

def rowAText : String := "CS 4349.003 12 / 30 Open"

def rowA : RowElem :=
  { text := rowAText, stopbubbleAnchor := some flipLabel,
    firstAnchor := none, statusSpan := none }

/-- Witness for C9 on the spec's end-to-end example row: the slash pattern
matches and yields both 12 and 30. -/
theorem C9_enrl_cap_single_pattern_witness :
    (parse_row_element rowA).enrolled = some 12 ∧
    (parse_row_element rowA).capacity = some 30 := by
  refine ⟨((C9_enrl_cap_single_pattern rowA).2.1 12 30 (by decide)).1,
    ((C9_enrl_cap_single_pattern rowA).2.1 12 30 (by decide)).2⟩
